import Mathlib

/-!
Verification development for the `cve_rss_monitor.py` polling/report loop.

The Python source is shallowly embedded: pure computations (filename
construction, markdown rendering, HTML-tag stripping, transport selection)
become Lean functions over `String`/`List Char`/`Nat`; the stateful
fetch–write–save cycle becomes explicit state passing; fallible operations
return `Except`.  External library behaviour (the filesystem write, the feed
parser outcome) enters as explicit parameters describing its outcome, exactly
where the code branches on it.
-/

namespace CveRss

/-! ### Decimal rendering, as Python's f-string `{n}` renders a nonnegative int

Implemented with an explicit fuel argument so that the definition is
structurally recursive and concrete instances reduce inside the kernel.
`natDecimal n` always supplies enough fuel (`n + 1` bounds the digit count). -/

def digitChar (d : Nat) : Char := Char.ofNat (48 + d)

def decAux : Nat → Nat → List Char
  | 0, _ => []
  | f + 1, n =>
    if n < 10 then [digitChar n] else decAux f (n / 10) ++ [digitChar (n % 10)]

def natDecimal (n : Nat) : List Char := decAux (n + 1) n

def natStr (n : Nat) : String := ⟨natDecimal n⟩

/-- Digit value of a character, inverse of `digitChar` on `0..9`. -/
def decVal (c : Char) : Nat := c.toNat - 48

def parseDec (l : List Char) : Nat := l.foldl (fun a c => a * 10 + decVal c) 0

/-! ### UTC timestamp formatting (`strftime "%Y-%m-%d"` / `"%H%M%S"`) -/

structure UtcTime where
  year : Nat
  month : Nat
  day : Nat
  hour : Nat
  minute : Nat
  second : Nat
  deriving DecidableEq

def pad2 (n : Nat) : String := if n < 10 then "0" ++ natStr n else natStr n

def pad4 (n : Nat) : String :=
  if n < 10 then "000" ++ natStr n
  else if n < 100 then "00" ++ natStr n
  else if n < 1000 then "0" ++ natStr n
  else natStr n

def dateStr (t : UtcTime) : String :=
  pad4 t.year ++ "-" ++ pad2 t.month ++ "-" ++ pad2 t.day

def timeStr (t : UtcTime) : String :=
  pad2 t.hour ++ pad2 t.minute ++ pad2 t.second

/-! ### HTML tag stripping: Python `re.sub('<[^<]+?>', '', s)`

`re.sub` scans left to right.  At a position holding `'<'`, the lazy pattern
`<[^<]+?>` matches the shortest span `<` · (one or more chars ≠ `'<'`) · `>`;
on a match the span is dropped and scanning resumes after it, otherwise the
scan advances one character.  `findClose` looks for the closing `'>'` after
the first consumed character (aborting at `'<'`, which `[^<]` cannot consume);
`tagEnd` requires at least one consumed character before the close.
`stripAux` carries fuel to stay structurally recursive; `l.length` fuel is
always enough because each recursive call strictly shrinks the list. -/

def findClose : List Char → Option (List Char)
  | [] => none
  | c :: rest =>
    if c = '>' then some rest else if c = '<' then none else findClose rest

def tagEnd : List Char → Option (List Char)
  | [] => none
  | c :: rest => if c = '<' then none else findClose rest

def stripAux : Nat → List Char → List Char
  | 0, l => l
  | _ + 1, [] => []
  | f + 1, c :: rest =>
    if c = '<' then
      match tagEnd rest with
      | some rest2 => stripAux f rest2
      | none => c :: stripAux f rest
    else c :: stripAux f rest

def stripTags (s : String) : String := ⟨stripAux s.data.length s.data⟩

/-! ### Report filenames

`generate_markdown` builds
`f"data/\x7bdate_str\x7d-\x7btime_str\x7d-pull\x7bself.pull_count\x7d.md"`.
The pull number can be recovered from the filename alone: it is the maximal
run of digits right before the trailing `".md"` (always preceded by the
non-digit `'l'` of `"pull"`).  That parse-back gives injectivity of the
filename in the counter, for arbitrary date and time strings. -/

def fname (ds ts : String) (c : Nat) : String :=
  "data/" ++ ds ++ "-" ++ ts ++ "-pull" ++ natStr c ++ ".md"

/-- The `pullN` component embedded in a report filename: drop the three
trailing characters `".md"`, then read the maximal digit suffix. -/
def extractCount (l : List Char) : Nat :=
  parseDec ((l.reverse.drop 3).takeWhile Char.isDigit).reverse

/-! ### Feed entries and markdown generation (`CVEMonitor.generate_markdown`)

An entry is a dict; `entry.get(key, default)` yields the stored value or the
default, modelled by `Option.getD`.  Python exceptions surface as the
`.error` case of `Except`; the filesystem's verdict on the artifact write
(`open`/`write` succeeding or raising `OSError`) is the `writeOk` parameter,
which is exactly where the code's behaviour branches on the outside world. -/

structure Entry where
  title : Option String
  link : Option String
  published : Option String
  description : Option String
  deriving DecidableEq

structure Feed where
  entries : List Entry
  deriving DecidableEq

inductive PyExn
  | ioError
  | attributeError
  deriving DecidableEq

instance {ε α : Type} [DecidableEq ε] [DecidableEq α] : DecidableEq (Except ε α) :=
  fun a b =>
    match a, b with
    | .ok x, .ok y =>
      if h : x = y then .isTrue (by rw [h]) else .isFalse (by intro hc; cases hc; exact h rfl)
    | .error x, .error y =>
      if h : x = y then .isTrue (by rw [h]) else .isFalse (by intro hc; cases hc; exact h rfl)
    | .ok _, .error _ => .isFalse (by intro hc; cases hc)
    | .error _, .ok _ => .isFalse (by intro hc; cases hc)

def entryBlock (e : Entry) : String :=
  "## " ++ e.title.getD "Untitled" ++ "\n"
    ++ "- **Link**: [" ++ e.link.getD "No link" ++ "](" ++ e.link.getD "No link" ++ ")\n"
    ++ "- **Published**: " ++ e.published.getD "Unknown" ++ "\n"
    ++ "- **Description**: " ++ stripTags (e.description.getD "No description") ++ "\n\n"

def mdContent (url ds ts : String) (c : Nat) (entries : List Entry) : String :=
  "# CVE Vulnerability Report - " ++ ds ++ " " ++ ts ++ " UTC (Pull #" ++ natStr c ++ ")\n\n"
    ++ "Source: " ++ url ++ "\n\n"
    ++ String.join (entries.map entryBlock)

/-- What `save_state` serialises: `json.dump(\x7b"pull_count": c\x7d, f)`. -/
def stateJson (c : Nat) : String :=
  "\x7b\"pull_count\": " ++ natStr c ++ "\x7d"

/-- Observable outcome of one `generate_markdown` call. -/
structure GenOut where
  result : Except PyExn (Option String)
  pull_count : Nat
  saved : Option Nat
  written : Option (String × String)
  deriving DecidableEq

/-- `CVEMonitor.generate_markdown`: returns `None` when the feed has no
entries; otherwise increments `self.pull_count` *before* opening the file,
writes the artifact, and only then calls `save_state`.  A raising write
(`writeOk = false`) escapes uncaught, after the in-memory increment and
before any save. -/
def generate_markdown (url : String) (now : UtcTime) (pc : Nat)
    (entries : List Entry) (writeOk : Bool) : GenOut :=
  if entries.isEmpty then
    { result := .ok none, pull_count := pc, saved := none, written := none }
  else
    let c := pc + 1
    let fn := fname (dateStr now) (timeStr now) c
    if writeOk then
      { result := .ok (some fn), pull_count := c, saved := some c,
        written := some (fn, mdContent url (dateStr now) (timeStr now) c entries) }
    else
      { result := .error .ioError, pull_count := c, saved := none, written := none }

/-! ### Feed fetching (`CVEMonitor.fetch_rss_feed`) and the update cycle

`feedparser.parse` either raises inside the `try` block (transport-level
failure) or returns a feed carrying a `bozo` flag (parse-level failure).
The two failures are classified by distinct log records — the only
classification channel the script has — and both produce the same return
value `None`. -/

inductive LogKind
  | infoFetching
  | infoFetched (n : Nat)
  | errorParse
  | errorNetwork
  deriving DecidableEq

inductive FetchInput
  | raises
  | parsed (entries : List Entry) (bozo : Bool)
  deriving DecidableEq

def fetch_rss_feed : FetchInput → Option Feed × List LogKind
  | .raises => (none, [.infoFetching, .errorNetwork])
  | .parsed _ true => (none, [.infoFetching, .errorParse])
  | .parsed es false => (some ⟨es⟩, [.infoFetching, .infoFetched es.length])

/-- Observable outcome of one `run_rss_update` call. -/
structure RunOut where
  result : Except PyExn (List String)
  pull_count : Nat
  saved : Option Nat
  written : Option (String × String)
  deriving DecidableEq

/-- `CVEMonitor.run_rss_update`: fetch, then (when a feed came back; a parsed
`FeedParserDict` is a non-empty dict, hence truthy) delegate to
`generate_markdown`.  There is no exception handler here, so an error raised
by `generate_markdown` propagates. -/
def run_rss_update (url : String) (now : UtcTime) (pc : Nat)
    (fin : FetchInput) (writeOk : Bool) : RunOut :=
  match fetch_rss_feed fin with
  | (none, _) => { result := .ok [], pull_count := pc, saved := none, written := none }
  | (some feed, _) =>
    let g := generate_markdown url now pc feed.entries writeOk
    match g.result with
    | .error e =>
      { result := .error e, pull_count := g.pull_count, saved := g.saved, written := g.written }
    | .ok (some f) =>
      { result := .ok [f], pull_count := g.pull_count, saved := g.saved, written := g.written }
    | .ok none =>
      { result := .ok [], pull_count := g.pull_count, saved := g.saved, written := g.written }

/-- One scheduler tick of `run_forever` that runs the RSS job:
`schedule.run_pending()` installs no handler, so an exception escaping
`run_rss_update` escapes the `while True` loop and kills the process.
On success the loop carries the updated in-memory counter. -/
def run_forever_tick (url : String) (now : UtcTime) (pc : Nat)
    (fin : FetchInput) (writeOk : Bool) : Except PyExn Nat :=
  match (run_rss_update url now pc fin writeOk).result with
  | .error e => .error e
  | .ok _ => .ok (run_rss_update url now pc fin writeOk).pull_count

/-! ### State loading (`CVEMonitor.load_state`)

The file content enters as its `json.load` outcome: missing file
(`FileNotFoundError`), unparseable bytes (`json.JSONDecodeError`), or a
parsed JSON value.  The code catches exactly those two exceptions; on a
parsed value it runs `state.get("pull_count", 0)`, which raises an uncaught
`AttributeError` unless the value is a dict, and performs no type check on
the stored value. -/

inductive JValue
  | jnull
  | jbool (b : Bool)
  | jnum (n : Int)
  | jstr (s : String)
  | jarr (xs : List JValue)
  | jobj (fields : List (String × JValue))

inductive StateFile
  | missing
  | unparseable
  | parsed (v : JValue)

def jIsObj : JValue → Bool
  | .jobj _ => true
  | _ => false

def load_state : StateFile → Except PyExn JValue
  | .missing => .ok (.jnum 0)
  | .unparseable => .ok (.jnum 0)
  | .parsed (.jobj fields) => .ok ((fields.lookup "pull_count").getD (.jnum 0))
  | .parsed _ => .error .attributeError

/-! ### Email digest (`CVEMonitor.send_email`, `CVEMonitor.run_daily_email`)

The world record carries everything the monitor persists: the in-memory
counter, the state file, and the files of the `data/` directory (name
without directory prefix, content).  `send_email` only reads; the transport
choice and the credential decision mirror lines 135–144 of the source,
including Python truthiness of `cfg.get('username')` (an empty string is
falsy).  Delivery success or failure enters as `deliveryOk`. -/

structure World where
  pull_count : Nat
  state_file : StateFile
  data_files : List (String × String)

structure EmailConfig where
  efrom : String
  eto : List String
  smtp_server : String
  smtp_port : Nat
  use_tls : Option Bool
  username : Option String
  password : Option String
  deriving DecidableEq

inductive Transport
  | ssl
  | plain (starttls : Bool)
  deriving DecidableEq

/-- Python truthiness of `cfg.get(key)` for a string-valued optional key. -/
def optTruthy : Option String → Bool
  | none => false
  | some s => !s.isEmpty

def transportOf (cfg : EmailConfig) : Transport :=
  if cfg.smtp_port = 465 then .ssl else .plain (cfg.use_tls.getD false)

def loginOf (cfg : EmailConfig) : Option (String × String) :=
  if optTruthy cfg.username && optTruthy cfg.password then
    some (cfg.username.getD "", cfg.password.getD "")
  else none

/-- `os.path.basename`: the part after the last `'/'`. -/
def basename (s : String) : String :=
  ⟨(s.data.reverse.takeWhile (fun c => c ≠ '/')).reverse⟩

structure EmailMsg where
  mfrom : String
  mto : String
  subject : String
  body : String
  attachments : List String
  deriving DecidableEq

structure SendOut where
  msg : Option EmailMsg
  transport : Option Transport
  login : Option (String × String)
  sent : Bool
  world : World

def send_email (today : String) (cfg : Option EmailConfig) (files : List String)
    (w : World) (deliveryOk : Bool) : SendOut :=
  match cfg with
  | none => { msg := none, transport := none, login := none, sent := false, world := w }
  | some c =>
    let body := "Daily CVE vulnerability report is attached.\n\n"
      ++ (if files.isEmpty then ""
          else "Generated reports:\n"
            ++ String.join (files.map (fun f => "- " ++ basename f ++ "\n")))
    let msg : EmailMsg :=
      { mfrom := c.efrom, mto := String.intercalate ", " c.eto,
        subject := "CVE Vulnerability Report - " ++ today, body := body,
        attachments := files.map basename }
    { msg := some msg, transport := some (transportOf c), login := loginOf c,
      sent := deliveryOk, world := w }

/-- `CVEMonitor.run_daily_email`: collect today's `.md` reports from the data
directory and hand them to `send_email`. -/
def run_daily_email (today : String) (cfg : Option EmailConfig)
    (w : World) (deliveryOk : Bool) : SendOut :=
  let report_files :=
    ((w.data_files.map Prod.fst).filter
      (fun f => f.startsWith today && f.endsWith ".md")).map (fun f => "data/" ++ f)
  send_email today cfg report_files w deliveryOk

/-! ### Sequences of successful report writes

One successful write is `generate_markdown` with a non-empty entry list and
a succeeding filesystem write; its outputs drive the in-memory counter, the
persisted counter (via `save_state`), and the artifact directory. -/

structure Artifact where
  filename : String
  content : String
  deriving DecidableEq

structure MState where
  pull_count : Nat
  persisted : Nat
  artifacts : List Artifact
  deriving DecidableEq

def writeStep (url : String) (s : MState) (inp : UtcTime × List Entry) : MState :=
  let g := generate_markdown url inp.1 s.pull_count inp.2 true
  { pull_count := g.pull_count,
    persisted := g.saved.getD s.persisted,
    artifacts := s.artifacts ++
      (match g.written with
       | some fc => [⟨fc.1, fc.2⟩]
       | none => []) }

def runWrites (url : String) (s : MState) (inputs : List (UtcTime × List Entry)) : MState :=
  inputs.foldl (writeStep url) s

/-- The artifacts a run of successful writes appends, starting at counter
`pc`: the `i`-th one is named and headed with counter `pc + i + 1`. -/
def mkArts (url : String) (pc : Nat) : List (UtcTime × List Entry) → List Artifact
  | [] => []
  | (now, es) :: rest =>
    ⟨fname (dateStr now) (timeStr now) (pc + 1),
     mdContent url (dateStr now) (timeStr now) (pc + 1) es⟩ :: mkArts url (pc + 1) rest

/-! ### Concrete fixtures for witnesses and counterexamples -/

def defaultUrl : String := "https://cvefeed.io/rssfeed/severity/high.xml"

def sampleTime : UtcTime := ⟨2024, 1, 1, 0, 0, 5⟩

def sampleTime2 : UtcTime := ⟨2024, 1, 1, 0, 15, 5⟩

def entryA : Entry := ⟨some "CVE-2024-0001", none, none, none⟩

def entryB : Entry := ⟨some "CVE-2024-0002", none, none, none⟩

def sampleWorld : World := ⟨5, .missing, [("2024-01-01-000005-pull6.md", "report")]⟩

/-- A configuration whose `username` key is present but holds the empty
string (falsy in Python), with a non-empty password. -/
def cfgEmptyUser : EmailConfig :=
  ⟨"alerts@example.com", ["ops@example.com"], "smtp.example.com", 25, none, some "", some "pw"⟩

/-- A port-465 configuration with credentials. -/
def cfg465 : EmailConfig :=
  ⟨"alerts@example.com", ["ops@example.com"], "smtp.example.com", 465, none,
   some "user", some "pw"⟩

/-! ### Supporting lemmas -/

set_option maxRecDepth 8000

theorem decVal_digitChar {d : Nat} (h : d < 10) : decVal (digitChar d) = d := by
  interval_cases d <;> decide

theorem isDigit_digitChar {d : Nat} (h : d < 10) : (digitChar d).isDigit = true := by
  interval_cases d <;> decide

theorem decAux_fuel_irrel :
    ∀ f₁ f₂ n, n < f₁ → n < f₂ → decAux f₁ n = decAux f₂ n := by
  intro f₁
  induction f₁ with
  | zero => intro f₂ n h₁; omega
  | succ f ih =>
    intro f₂ n h₁ h₂
    cases f₂ with
    | zero => omega
    | succ f' =>
      show decAux (f + 1) n = decAux (f' + 1) n
      rw [decAux, decAux]
      by_cases hn : n < 10
      · simp [hn]
      · have hd : n / 10 < n := Nat.div_lt_self (by omega) (by omega)
        simp only [hn, if_false]
        rw [ih f' (n / 10) (by omega) (by omega)]

theorem decAux_succ (f n : Nat) :
    decAux (f + 1) n
      = if n < 10 then [digitChar n] else decAux f (n / 10) ++ [digitChar (n % 10)] := by
  rw [decAux]

theorem decAux_ne_nil : ∀ f n, n < f → decAux f n ≠ [] := by
  intro f
  cases f with
  | zero => intro n h; omega
  | succ f =>
    intro n _
    rw [decAux]
    by_cases hn : n < 10
    · simp [hn]
    · simp [hn]

theorem natDecimal_ne_nil (n : Nat) : natDecimal n ≠ [] :=
  decAux_ne_nil (n + 1) n (Nat.lt_succ_self n)

theorem decAux_all_digit :
    ∀ f n, n < f → ∀ c ∈ decAux f n, c.isDigit = true := by
  intro f
  induction f with
  | zero => intro n h; omega
  | succ f ih =>
    intro n hn c hc
    rw [decAux] at hc
    by_cases h10 : n < 10
    · simp [h10] at hc
      subst hc
      exact isDigit_digitChar h10
    · have hd : n / 10 < n := Nat.div_lt_self (by omega) (by omega)
      simp only [h10, if_false, List.mem_append, List.mem_singleton] at hc
      rcases hc with hc | hc
      · exact ih (n / 10) (by omega) c hc
      · subst hc
        exact isDigit_digitChar (Nat.mod_lt _ (by omega))

theorem natDecimal_all_digit (n : Nat) : ∀ c ∈ natDecimal n, c.isDigit = true :=
  decAux_all_digit (n + 1) n (Nat.lt_succ_self n)

theorem foldl_decAux :
    ∀ f n, n < f → ∀ a,
      (decAux f n).foldl (fun a c => a * 10 + decVal c) a
        = a * 10 ^ (decAux f n).length + n := by
  intro f
  induction f with
  | zero => intro n h; omega
  | succ f ih =>
    intro n hn a
    rw [decAux]
    by_cases h10 : n < 10
    · simp [h10, List.foldl, decVal_digitChar h10]
    · have hd : n / 10 < n := Nat.div_lt_self (by omega) (by omega)
      simp only [h10, if_false, List.foldl_append, List.foldl, List.length_append,
        List.length_singleton]
      rw [ih (n / 10) (by omega) a]
      rw [decVal_digitChar (Nat.mod_lt _ (by omega : (0:Nat) < 10))]
      have := Nat.div_add_mod n 10
      ring_nf
      omega

theorem parseDec_natDecimal (n : Nat) : parseDec (natDecimal n) = n := by
  have h := foldl_decAux (n + 1) n (Nat.lt_succ_self n) 0
  simpa [parseDec, natDecimal] using h

theorem findClose_length :
    ∀ l l2, findClose l = some l2 → l2.length < l.length := by
  intro l
  induction l with
  | nil => intro l2 h; simp [findClose] at h
  | cons c rest ih =>
    intro l2 h
    rw [findClose] at h
    by_cases hgt : c = '>'
    · simp [hgt] at h
      subst h
      simp
    · by_cases hlt : c = '<'
      · simp [hgt, hlt] at h
      · simp [hgt, hlt] at h
        have := ih l2 h
        simp
        omega

theorem tagEnd_length : ∀ l l2, tagEnd l = some l2 → l2.length < l.length := by
  intro l l2 h
  cases l with
  | nil => simp [tagEnd] at h
  | cons c rest =>
    rw [tagEnd] at h
    by_cases hlt : c = '<'
    · simp [hlt] at h
    · simp [hlt] at h
      have := findClose_length rest l2 h
      simp
      omega

theorem stripAux_fuel_irrel :
    ∀ f₁ f₂ l, l.length ≤ f₁ → l.length ≤ f₂ → stripAux f₁ l = stripAux f₂ l := by
  intro f₁
  induction f₁ with
  | zero =>
    intro f₂ l h₁ _
    have : l = [] := List.length_eq_zero.mp (by omega)
    subst this
    cases f₂ <;> rfl
  | succ f ih =>
    intro f₂ l h₁ h₂
    cases l with
    | nil => cases f₂ <;> rfl
    | cons c rest =>
      cases f₂ with
      | zero => simp at h₂
      | succ f' =>
        rw [stripAux, stripAux]
        simp only [List.length_cons] at h₁ h₂
        by_cases hc : c = '<'
        · simp only [hc, if_true]
          cases he : tagEnd rest with
          | none => rw [ih f' rest (by omega) (by omega)]
          | some rest2 =>
            have := tagEnd_length rest rest2 he
            exact ih f' rest2 (by omega) (by omega)
        · simp only [hc, if_false]
          rw [ih f' rest (by omega) (by omega)]

/-- On text containing no `'<'`, the stripping pass is the identity. -/
theorem stripAux_no_lt :
    ∀ f l, l.length ≤ f → (∀ c ∈ l, c ≠ '<') → stripAux f l = l := by
  intro f
  induction f with
  | zero =>
    intro l h _
    have : l = [] := List.length_eq_zero.mp (by omega)
    simp [this, stripAux]
  | succ f ih =>
    intro l hl hno
    cases l with
    | nil => rfl
    | cons c rest =>
      rw [stripAux]
      have hc : c ≠ '<' := hno c (by simp)
      simp only [hc, if_false]
      simp only [List.length_cons] at hl
      rw [ih rest (by omega) (fun d hd => hno d (by simp [hd]))]

theorem takeWhile_append_of_all {p : Char → Bool} :
    ∀ l₁ l₂ : List Char, (∀ a ∈ l₁, p a = true) →
      (l₁ ++ l₂).takeWhile p = l₁ ++ l₂.takeWhile p := by
  intro l₁
  induction l₁ with
  | nil => intro l₂ _; simp
  | cons a l ih =>
    intro l₂ h
    have ha : p a = true := h a (by simp)
    simp only [List.cons_append, List.takeWhile_cons, ha, if_true]
    rw [ih l₂ (fun b hb => h b (by simp [hb]))]

theorem extractCount_eq (A D : List Char) (hD : ∀ c ∈ D, c.isDigit = true) :
    extractCount (A ++ 'l' :: (D ++ ['.', 'm', 'd'])) = parseDec D := by
  unfold extractCount
  have h1 : (A ++ 'l' :: (D ++ ['.', 'm', 'd'])).reverse
      = 'd' :: 'm' :: '.' :: (D.reverse ++ 'l' :: A.reverse) := by
    simp
  rw [h1]
  simp only [List.drop_succ_cons, List.drop_zero]
  rw [takeWhile_append_of_all D.reverse ('l' :: A.reverse)
        (fun a ha => hD a (List.mem_reverse.mp ha))]
  have h2 : ('l' :: A.reverse).takeWhile Char.isDigit = [] := by
    simp [List.takeWhile_cons]
  rw [h2]
  simp

theorem extractCount_fname (ds ts : String) (c : Nat) :
    extractCount (fname ds ts c).data = c := by
  have h : (fname ds ts c).data
      = ("data/" ++ ds ++ "-" ++ ts ++ "-pul").data
        ++ 'l' :: (natDecimal c ++ ['.', 'm', 'd']) := by
    simp [fname, natStr]
  rw [h, extractCount_eq _ _ (natDecimal_all_digit c), parseDec_natDecimal]

/-- Filenames built by the report writer are injective in the pull counter,
whatever the date and time strings are. -/
theorem fname_inj {ds₁ ts₁ ds₂ ts₂ : String} {c₁ c₂ : Nat}
    (h : fname ds₁ ts₁ c₁ = fname ds₂ ts₂ c₂) : c₁ = c₂ := by
  have := congrArg (fun s => extractCount s.data) h
  simpa [extractCount_fname] using this

theorem writeStep_nonempty (url : String) (s : MState) (now : UtcTime)
    (es : List Entry) (h : es ≠ []) :
    writeStep url s (now, es)
      = ⟨s.pull_count + 1, s.pull_count + 1,
         s.artifacts
           ++ [⟨fname (dateStr now) (timeStr now) (s.pull_count + 1),
                mdContent url (dateStr now) (timeStr now) (s.pull_count + 1) es⟩]⟩ := by
  have hne : es.isEmpty = false := by
    cases es with
    | nil => exact absurd rfl h
    | cons a l => rfl
  simp [writeStep, generate_markdown, hne]

/-- Characterisation of a run of successful writes: the counter advances by
the number of writes, the persisted value tracks it, and the artifacts
appended are exactly `mkArts`. -/
theorem runWrites_spec (url : String) :
    ∀ (inputs : List (UtcTime × List Entry)) (s : MState),
      (∀ p ∈ inputs, p.2 ≠ []) → s.persisted = s.pull_count →
      runWrites url s inputs
        = ⟨s.pull_count + inputs.length, s.pull_count + inputs.length,
           s.artifacts ++ mkArts url s.pull_count inputs⟩ := by
  intro inputs
  induction inputs with
  | nil =>
    intro s _ hp
    cases s with
    | mk pc pe arts => simp_all [runWrites, mkArts]
  | cons inp rest ih =>
    intro s h hp
    obtain ⟨now, es⟩ := inp
    have hes : es ≠ [] := h (now, es) (by simp)
    show runWrites url (writeStep url s (now, es)) rest = _
    rw [writeStep_nonempty url s now es hes]
    rw [ih _ (fun p hp2 => h p (by simp [hp2])) rfl]
    simp [mkArts, List.append_assoc]
    omega

theorem mkArts_length (url : String) :
    ∀ (inputs : List (UtcTime × List Entry)) (pc : Nat),
      (mkArts url pc inputs).length = inputs.length := by
  intro inputs
  induction inputs with
  | nil => intro pc; rfl
  | cons inp rest ih =>
    intro pc
    obtain ⟨now, es⟩ := inp
    simp [mkArts, ih]

/-- The `i`-th artifact of a run starting at counter `pc` carries counter
`pc + i + 1`, in both its filename and its markdown header. -/
theorem mkArts_get (url : String) :
    ∀ (inputs : List (UtcTime × List Entry)) (pc i : Nat)
      (hi : i < (mkArts url pc inputs).length),
      ∃ now es,
        (mkArts url pc inputs).get ⟨i, hi⟩
          = ⟨fname (dateStr now) (timeStr now) (pc + i + 1),
             mdContent url (dateStr now) (timeStr now) (pc + i + 1) es⟩ := by
  intro inputs
  induction inputs with
  | nil => intro pc i hi; simp [mkArts] at hi
  | cons inp rest ih =>
    intro pc i hi
    obtain ⟨now, es⟩ := inp
    cases i with
    | zero => exact ⟨now, es, rfl⟩
    | succ i =>
      have hi2 : i < (mkArts url (pc + 1) rest).length := by
        simp [mkArts] at hi
        simpa using hi
      obtain ⟨now2, es2, hget⟩ := ih (pc + 1) i hi2
      refine ⟨now2, es2, ?_⟩
      have harith : pc + 1 + i + 1 = pc + (i + 1) + 1 := by omega
      show (mkArts url (pc + 1) rest).get ⟨i, _⟩ = _
      rw [hget, harith]

theorem extract_mkArts (url : String) (inputs : List (UtcTime × List Entry))
    (pc i : Nat) (hi : i < (mkArts url pc inputs).length) :
    extractCount ((mkArts url pc inputs).get ⟨i, hi⟩).filename.data = pc + i + 1 := by
  obtain ⟨now, es, hget⟩ := mkArts_get url inputs pc i hi
  rw [hget]
  exact extractCount_fname _ _ _

theorem mkArts_filenames_nodup (url : String)
    (inputs : List (UtcTime × List Entry)) (pc : Nat) :
    ((mkArts url pc inputs).map Artifact.filename).Nodup := by
  rw [List.nodup_iff_injective_get]
  intro i j hij
  have hi := i.2
  have hj := j.2
  simp only [List.length_map] at hi hj
  rw [List.get_map, List.get_map] at hij
  have hcnt := congrArg (fun s => extractCount s.data) hij
  simp only at hcnt
  rw [extract_mkArts url inputs pc i.1 (by simpa using hi),
      extract_mkArts url inputs pc j.1 (by simpa using hj)] at hcnt
  exact Fin.ext (by omega)

theorem lookup_none_of_not_mem :
    ∀ (fields : List (String × JValue)) (key : String),
      key ∉ fields.map Prod.fst → fields.lookup key = none := by
  intro fields
  induction fields with
  | nil => intro key _; rfl
  | cons kv rest ih =>
    intro key hmem
    obtain ⟨k, v⟩ := kv
    simp only [List.map_cons, List.mem_cons, not_or] at hmem
    have hne : (key == k) = false := beq_eq_false_iff_ne.mpr hmem.1
    simp [List.lookup, hne, ih key hmem.2]

/-! ### The claims -/

/-- Claim C8: for every fetch cycle in which the feed yields zero entries,
no artifact write is performed (`generate_markdown` returns before touching
the filesystem), no artifact is created, `pull_count` is unchanged and no
state save happens. -/
theorem c8_zero_entries_frame (url : String) (now : UtcTime) (pc : Nat) (w : Bool) :
    run_rss_update url now pc (.parsed [] false) w
      = { result := .ok [], pull_count := pc, saved := none, written := none } := rfl

/-- Claim C9: a document that parses but is malformed (`bozo` set) yields the
failure value `none`, classified by a parse-error log record distinct from
the network-error record of a transport failure, and in either case the
cycle treats it as "no entries" and returns normally with state untouched. -/
theorem c9_fetch_failure_classification (url : String) (now : UtcTime) (pc : Nat)
    (es : List Entry) (w : Bool) :
    fetch_rss_feed (.parsed es true) = (none, [.infoFetching, .errorParse])
    ∧ fetch_rss_feed .raises = (none, [.infoFetching, .errorNetwork])
    ∧ LogKind.errorParse ≠ LogKind.errorNetwork
    ∧ run_rss_update url now pc (.parsed es true) w
        = { result := .ok [], pull_count := pc, saved := none, written := none }
    ∧ run_rss_update url now pc .raises w
        = { result := .ok [], pull_count := pc, saved := none, written := none } :=
  ⟨rfl, rfl, by decide, rfl, rfl⟩

/-- Claim C10: the digest cycle never modifies the monitor state: for every
configuration, report set and delivery outcome, `run_daily_email` and
`send_email` leave the counter, the state file and the data directory
exactly as they were. -/
theorem c10_digest_frame (today : String) (cfg : Option EmailConfig)
    (files : List String) (w : World) (dOk : Bool) :
    (run_daily_email today cfg w dOk).world.pull_count = w.pull_count
    ∧ (run_daily_email today cfg w dOk).world.state_file = w.state_file
    ∧ (run_daily_email today cfg w dOk).world.data_files = w.data_files
    ∧ (send_email today cfg files w dOk).world.pull_count = w.pull_count
    ∧ (send_email today cfg files w dOk).world.state_file = w.state_file
    ∧ (send_email today cfg files w dOk).world.data_files = w.data_files := by
  cases cfg <;> exact ⟨rfl, rfl, rfl, rfl, rfl, rfl⟩

/-- Claim C6: two entries titled CVE-2024-0001 / CVE-2024-0002 written at
2024-01-01T00:00:05Z with `pull_count = 5` produce the artifact
`data/2024-01-01-000005-pull6.md` containing two `##` sections with the
per-field defaults, and persist `pull_count = 6` (serialised as the JSON
object with a single `pull_count` key). -/
theorem c6_end_to_end_scenario :
    (generate_markdown defaultUrl sampleTime 5 [entryA, entryB] true).result
        = .ok (some "data/2024-01-01-000005-pull6.md")
    ∧ (generate_markdown defaultUrl sampleTime 5 [entryA, entryB] true).written
        = some ("data/2024-01-01-000005-pull6.md",
            "# CVE Vulnerability Report - 2024-01-01 000005 UTC (Pull #6)\n\n"
            ++ "Source: https://cvefeed.io/rssfeed/severity/high.xml\n\n"
            ++ "## CVE-2024-0001\n- **Link**: [No link](No link)\n"
            ++ "- **Published**: Unknown\n- **Description**: No description\n\n"
            ++ "## CVE-2024-0002\n- **Link**: [No link](No link)\n"
            ++ "- **Published**: Unknown\n- **Description**: No description\n\n")
    ∧ (generate_markdown defaultUrl sampleTime 5 [entryA, entryB] true).pull_count = 6
    ∧ (generate_markdown defaultUrl sampleTime 5 [entryA, entryB] true).saved = some 6
    ∧ stateJson 6 = "\x7b\"pull_count\": 6\x7d" :=
  ⟨rfl, rfl, rfl, rfl, rfl⟩

/-- Counterexample to claim C5: stripping `"<<a>b>"` once yields `"<b>"`;
stripping again yields `""`, so the markup-stripping pass is not
idempotent. -/
theorem c5_counterexample :
    stripTags (stripTags "<<a>b>") ≠ stripTags "<<a>b>" := by decide

/-- Claim C5, amended: the stripping pass is idempotent on every input whose
once-stripped text retains no `'<'` character; removal of a tag span can
juxtapose a `'<'` with a later `'>'` and create a new tag, so idempotence
fails in general (see the counterexample). -/
theorem c5_strip_idempotent_no_lt (s : String)
    (h : ∀ c ∈ (stripTags s).data, c ≠ '<') :
    stripTags (stripTags s) = stripTags s := by
  show (⟨stripAux (stripTags s).data.length (stripTags s).data⟩ : String) = stripTags s
  rw [stripAux_no_lt (stripTags s).data.length (stripTags s).data le_rfl h]

/-- Witness for the amended C5: `"a<b>c</b>d"` strips to `"acd"`, which has
no `'<'` left, and a second strip leaves it unchanged. -/
theorem c5_witness :
    (∀ c ∈ (stripTags "a<b>c</b>d").data, c ≠ '<')
    ∧ stripTags (stripTags "a<b>c</b>d") = stripTags "a<b>c</b>d" :=
  ⟨by decide, c5_strip_idempotent_no_lt "a<b>c</b>d" (by decide)⟩

/-- Counterexample to claim C2: with `pull_count = 5` and a failing artifact
write, `generate_markdown` raises — yet the in-memory counter was already
bumped to 6 before the write, so a failed write does not leave the in-memory
`pull_count` unchanged. -/
theorem c2_counterexample :
    (generate_markdown defaultUrl sampleTime 5 [entryA] false).result = .error .ioError
    ∧ (generate_markdown defaultUrl sampleTime 5 [entryA] false).pull_count ≠ 5 :=
  ⟨rfl, by decide⟩

/-- Claim C2, amended: for a non-empty entry list, `save_state` runs exactly
when the artifact write succeeds (recording the incremented counter), and a
failed write leaves the persisted state untouched — but the in-memory
`pull_count` is incremented before the write is attempted, so a failed
write leaves it at `pc + 1`, not `pc`. -/
theorem c2_save_iff_write_success (url : String) (now : UtcTime) (pc : Nat)
    (entries : List Entry) (h : entries ≠ []) :
    (∀ w, ((generate_markdown url now pc entries w).saved).isSome = w)
    ∧ (generate_markdown url now pc entries true).saved = some (pc + 1)
    ∧ (generate_markdown url now pc entries false).saved = none
    ∧ (generate_markdown url now pc entries false).result = .error .ioError
    ∧ (generate_markdown url now pc entries false).pull_count = pc + 1 := by
  have hne : entries.isEmpty = false := by
    cases entries with
    | nil => exact absurd rfl h
    | cons a l => rfl
  refine ⟨fun w => ?_, ?_, ?_, ?_, ?_⟩
  · cases w <;> simp [generate_markdown, hne]
  · simp [generate_markdown, hne]
  · simp [generate_markdown, hne]
  · simp [generate_markdown, hne]
  · simp [generate_markdown, hne]

/-- Witness for the amended C2, at one non-empty entry list. -/
theorem c2_witness :
    ([entryA] ≠ ([] : List Entry))
    ∧ ((∀ w, ((generate_markdown defaultUrl sampleTime 5 [entryA] w).saved).isSome = w)
       ∧ (generate_markdown defaultUrl sampleTime 5 [entryA] true).saved = some 6
       ∧ (generate_markdown defaultUrl sampleTime 5 [entryA] false).saved = none
       ∧ (generate_markdown defaultUrl sampleTime 5 [entryA] false).result = .error .ioError
       ∧ (generate_markdown defaultUrl sampleTime 5 [entryA] false).pull_count = 6) :=
  ⟨by decide, c2_save_iff_write_success defaultUrl sampleTime 5 [entryA] (by decide)⟩

/-- Counterexample to claim C3: valid JSON that is not an object (an empty
array) makes `load_state` raise an uncaught `AttributeError`, and an object
whose `pull_count` is a string is stored as-is rather than reset to 0. -/
theorem c3_counterexample :
    load_state (.parsed (.jarr [])) = .error .attributeError
    ∧ load_state (.parsed (.jobj [("pull_count", .jstr "soon")])) = .ok (.jstr "soon")
    ∧ JValue.jstr "soon" ≠ JValue.jnum 0 :=
  ⟨rfl, rfl, by simp⟩

/-- Claim C3, amended: `load_state` never raises and yields `pull_count = 0`
for a missing file or content that fails to parse as JSON, and yields 0 for
a parsed object without the key; but a parsed object stores its
`pull_count` value untyped and unchecked, and parsed non-object JSON
escapes the handler as an `AttributeError`. -/
theorem c3_load_state_behaviour :
    load_state .missing = .ok (.jnum 0)
    ∧ load_state .unparseable = .ok (.jnum 0)
    ∧ (∀ fields, "pull_count" ∉ fields.map Prod.fst →
        load_state (.parsed (.jobj fields)) = .ok (.jnum 0))
    ∧ (∀ fields v, fields.lookup "pull_count" = some v →
        load_state (.parsed (.jobj fields)) = .ok v)
    ∧ (∀ v, jIsObj v = false → load_state (.parsed v) = .error .attributeError) := by
  refine ⟨rfl, rfl, fun fields hmem => ?_, fun fields v hv => ?_, fun v hv => ?_⟩
  · rw [load_state, lookup_none_of_not_mem fields "pull_count" hmem]
    rfl
  · rw [load_state, hv]
    rfl
  · cases v <;> first | rfl | exact absurd hv (by simp [jIsObj])

/-- Witness for the amended C3: an object holding `pull_count = 7` loads as
7, and a parsed array raises. -/
theorem c3_witness :
    load_state (.parsed (.jobj [("pull_count", .jnum 7)])) = .ok (.jnum 7)
    ∧ load_state (.parsed (.jarr [.jnum 1])) = .error .attributeError :=
  ⟨c3_load_state_behaviour.2.2.2.1 [("pull_count", .jnum 7)] (.jnum 7) rfl,
   c3_load_state_behaviour.2.2.2.2 (.jarr [.jnum 1]) rfl⟩

/-- Counterexample to claim C4: a fetch that succeeds with one entry
followed by a failing artifact write makes the scheduler tick itself raise —
the exception escapes `run_rss_update` (which has no handler) into the
`run_forever` loop and kills it. -/
theorem c4_counterexample :
    run_forever_tick defaultUrl sampleTime 0 (.parsed [entryA] false) false
      = .error .ioError := rfl

/-- Claim C4, amended: fetch-stage failures (transport error or parse error)
are caught inside the cycle, which returns normally with the loop carrying
on; but a failure of the artifact write stage is not caught anywhere, so it
propagates out of the cycle and out of the scheduler loop. -/
theorem c4_failure_containment (url : String) (now : UtcTime) (pc : Nat) :
    (∀ w, run_forever_tick url now pc .raises w = .ok pc)
    ∧ (∀ es w, run_forever_tick url now pc (.parsed es true) w = .ok pc)
    ∧ (∀ es, es ≠ [] →
        run_forever_tick url now pc (.parsed es false) false = .error .ioError) := by
  refine ⟨fun w => rfl, fun es w => rfl, fun es hes => ?_⟩
  have hne : es.isEmpty = false := by
    cases es with
    | nil => exact absurd rfl hes
    | cons a l => rfl
  simp [run_forever_tick, run_rss_update, fetch_rss_feed, generate_markdown, hne]

/-- Witness for the amended C4: the contained fetch failures and the
escaping write failure, at concrete inputs. -/
theorem c4_witness :
    run_forever_tick defaultUrl sampleTime 3 .raises true = .ok 3
    ∧ run_forever_tick defaultUrl sampleTime 3 (.parsed [entryA] true) true = .ok 3
    ∧ run_forever_tick defaultUrl sampleTime 3 (.parsed [entryA] false) false
        = .error .ioError :=
  ⟨(c4_failure_containment defaultUrl sampleTime 3).1 true,
   (c4_failure_containment defaultUrl sampleTime 3).2.1 [entryA] true,
   (c4_failure_containment defaultUrl sampleTime 3).2.2 [entryA] (by decide)⟩

/-- Counterexample to claim C7: a configuration whose `username` key is
present but holds the empty string, with a password present, supplies no
login credentials — the code tests Python truthiness, not presence. -/
theorem c7_counterexample :
    (send_email "2024-01-01" (some cfgEmptyUser) [] sampleWorld true).login = none
    ∧ cfgEmptyUser.username.isSome = true
    ∧ cfgEmptyUser.password.isSome = true :=
  ⟨rfl, rfl, rfl⟩

/-- Claim C7, amended: the notifier selects implicit-encryption transport
(`SMTP_SSL`) iff the port is 465; on any other port it upgrades via
STARTTLS iff `use_tls` is set; and it supplies credentials iff both a
username and a password are present *and non-empty* (Python truthiness). -/
theorem c7_transport_selection (today : String) (files : List String)
    (w : World) (dOk : Bool) (cfg : EmailConfig) :
    ((send_email today (some cfg) files w dOk).transport = some .ssl
        ↔ cfg.smtp_port = 465)
    ∧ ((send_email today (some cfg) files w dOk).transport = some (.plain true)
        ↔ (cfg.smtp_port ≠ 465 ∧ cfg.use_tls.getD false = true))
    ∧ (((send_email today (some cfg) files w dOk).login).isSome
        ↔ (optTruthy cfg.username = true ∧ optTruthy cfg.password = true)) := by
  have ht : (send_email today (some cfg) files w dOk).transport = some (transportOf cfg) := rfl
  have hl : (send_email today (some cfg) files w dOk).login = loginOf cfg := rfl
  rw [ht, hl]
  refine ⟨?_, ?_, ?_⟩
  · by_cases hp : cfg.smtp_port = 465 <;> simp [transportOf, hp]
  · by_cases hp : cfg.smtp_port = 465 <;> simp [transportOf, hp]
  · by_cases hu : optTruthy cfg.username <;>
      by_cases hpw : optTruthy cfg.password <;> simp [loginOf, hu, hpw]

/-- Witness for the amended C7: at port 465 the ssl transport is chosen. -/
theorem c7_witness :
    (send_email "2024-01-01" (some cfg465) [] sampleWorld true).transport
      = some Transport.ssl :=
  (c7_transport_selection "2024-01-01" [] sampleWorld true cfg465).1.mpr rfl

/-- Claim C1: starting from persisted `pull_count = k`, any sequence of N
successful report writes leaves the persisted counter at `k + N`; every
artifact of the sequence is named (its `pullN` filename component) and
headed (its `Pull #N` markdown header) with exactly the counter value the
write that created it persisted; and no two artifacts of the sequence share
a filename. -/
theorem c1_counter_lockstep (url : String) (k : Nat)
    (inputs : List (UtcTime × List Entry)) (h : ∀ p ∈ inputs, p.2 ≠ []) :
    (runWrites url ⟨k, k, []⟩ inputs).persisted = k + inputs.length
    ∧ (∀ i, ∀ hi : i < (runWrites url ⟨k, k, []⟩ inputs).artifacts.length,
        ∃ now es,
          (runWrites url ⟨k, k, []⟩ inputs).artifacts.get ⟨i, hi⟩
            = ⟨fname (dateStr now) (timeStr now)
                 ((runWrites url ⟨k, k, []⟩ (inputs.take (i + 1))).persisted),
               mdContent url (dateStr now) (timeStr now)
                 ((runWrites url ⟨k, k, []⟩ (inputs.take (i + 1))).persisted) es⟩)
    ∧ ((runWrites url ⟨k, k, []⟩ inputs).artifacts.map Artifact.filename).Nodup := by
  have hsub : ∀ i : Nat, ∀ p ∈ inputs.take (i + 1), p.2 ≠ [] :=
    fun i p hp => h p (List.take_subset _ _ hp)
  have hrun := runWrites_spec url inputs ⟨k, k, []⟩ h rfl
  rw [hrun]
  simp only [List.nil_append]
  refine ⟨trivial, ?_, mkArts_filenames_nodup url inputs k⟩
  intro i hi
  have hlen : i < inputs.length := by
    have hml := mkArts_length url inputs k
    omega
  obtain ⟨now, es, hget⟩ := mkArts_get url inputs k i hi
  refine ⟨now, es, ?_⟩
  rw [runWrites_spec url (inputs.take (i + 1)) ⟨k, k, []⟩ (hsub i) rfl, hget]
  simp only [List.length_take]
  rw [Nat.min_eq_left (by omega)]
  simp [Nat.add_assoc]

/-- Witness for C1: two successful writes from counter 5 persist 7, embed
counters 6 and 7, and name two distinct artifacts. -/
theorem c1_witness :
    (∀ p ∈ [(sampleTime, [entryA]), (sampleTime2, [entryB])], p.2 ≠ ([] : List Entry))
    ∧ ((runWrites defaultUrl ⟨5, 5, []⟩
          [(sampleTime, [entryA]), (sampleTime2, [entryB])]).persisted
        = 5 + ([(sampleTime, [entryA]), (sampleTime2, [entryB])]).length
      ∧ (∀ i, ∀ hi : i < (runWrites defaultUrl ⟨5, 5, []⟩
            [(sampleTime, [entryA]), (sampleTime2, [entryB])]).artifacts.length,
          ∃ now es,
            (runWrites defaultUrl ⟨5, 5, []⟩
              [(sampleTime, [entryA]), (sampleTime2, [entryB])]).artifacts.get ⟨i, hi⟩
              = ⟨fname (dateStr now) (timeStr now)
                   ((runWrites defaultUrl ⟨5, 5, []⟩
                      ([(sampleTime, [entryA]), (sampleTime2, [entryB])].take (i + 1))).persisted),
                 mdContent defaultUrl (dateStr now) (timeStr now)
                   ((runWrites defaultUrl ⟨5, 5, []⟩
                      ([(sampleTime, [entryA]), (sampleTime2, [entryB])].take (i + 1))).persisted) es⟩)
      ∧ ((runWrites defaultUrl ⟨5, 5, []⟩
            [(sampleTime, [entryA]), (sampleTime2, [entryB])]).artifacts.map
              Artifact.filename).Nodup) :=
  ⟨by decide,
   c1_counter_lockstep defaultUrl 5 [(sampleTime, [entryA]), (sampleTime2, [entryB])]
     (by decide)⟩

end CveRss
